import Mathlib

/-!
Verification of the dependency-ticket and cache-entry declaration layer of
`drake::systems::SystemBase` (src/systems/framework/system_base.h), as a
shallow embedding in Lean.

Modelling conventions:
* `DependencyTicket` is a `Nat` (the C++ type is a strong integer alias).
* A context is an arbitrary type `C`; a type-erased `AbstractValue` is an
  arbitrary type `V`.  An allocator is `C → V` (the C++ allocator returns a
  heap-allocated AbstractValue; ownership is irrelevant to the properties
  proved here), and a calculator is `C → V → V` (the C++ calculator writes
  through an `AbstractValue*`; we model the written result as the return
  value).
* C++ exceptions (`std::logic_error`) and `DRAKE_DEMAND` aborts are modelled
  with `Except DeclError`; an error result carries no successor state, which
  matches the C++ behavior that a throw at declaration time leaves the
  system object unmodified (the checks precede every mutation).
* The bound-method overloads perform `dynamic_cast<const MySystem*>(this)`;
  the cast result is modelled as an `Option MySys` argument (`none` for a
  failed cast).  The per-callback context downcast
  `dynamic_cast<const MyContext&>` is elided by letting the bound methods
  operate on the context type `C` directly; no claim here depends on it.
-/

/-- Modelled from the spec: the well-known ticket constants live in
`drake/systems/framework/framework_common.h`, which is not among the source
files; the spec fixes the vocabulary (nothing, time, accuracy, q, v, z, xc,
xd, xa, all_state, xcdot, xdhat, configuration, velocity, kinematics,
all_parameters, all_input_ports, all_sources) and that they are identical
across subsystem instances.  Only their distinctness and the fact that
`kNextAvailableTicket` is the first value after the last well-known one
matter to the claims, so we number them consecutively. -/
def kNothingTicket : Nat := 0

/-- Well-known ticket: time. -/
def kTimeTicket : Nat := 1

/-- Well-known ticket: accuracy. -/
def kAccuracyTicket : Nat := 2

/-- Well-known ticket: configuration state q. -/
def kQTicket : Nat := 3

/-- Well-known ticket: velocity state v. -/
def kVTicket : Nat := 4

/-- Well-known ticket: miscellaneous continuous state z. -/
def kZTicket : Nat := 5

/-- Well-known ticket: all continuous state xc. -/
def kXcTicket : Nat := 6

/-- Well-known ticket: discrete state xd. -/
def kXdTicket : Nat := 7

/-- Well-known ticket: abstract state xa. -/
def kXaTicket : Nat := 8

/-- Well-known ticket: all state x. -/
def kXTicket : Nat := 9

/-- Well-known ticket: continuous-derivative cache xcdot. -/
def kXcdotTicket : Nat := 10

/-- Well-known ticket: discrete-update cache xdhat. -/
def kXdhatTicket : Nat := 11

/-- Well-known ticket: configuration. -/
def kConfigurationTicket : Nat := 12

/-- Well-known ticket: velocity. -/
def kVelocityTicket : Nat := 13

/-- Well-known ticket: kinematics. -/
def kKinematicsTicket : Nat := 14

/-- Well-known ticket: all parameters. -/
def kAllParametersTicket : Nat := 15

/-- Well-known ticket: all input ports. -/
def kAllInputPortsTicket : Nat := 16

/-- Well-known ticket: all sources. -/
def kAllSourcesTicket : Nat := 17

/-- Modelled from the spec: the first ticket value available for
entity-specific resources, immediately after the last well-known value. -/
def kNextAvailableTicket : Nat := 18

/-- The complete well-known ticket vocabulary, for stating that
entity-specific tickets start past every well-known value. -/
def wellKnownTickets : List Nat :=
  [kNothingTicket, kTimeTicket, kAccuracyTicket, kQTicket, kVTicket,
   kZTicket, kXcTicket, kXdTicket, kXaTicket, kXTicket, kXcdotTicket,
   kXdhatTicket, kConfigurationTicket, kVelocityTicket, kKinematicsTicket,
   kAllParametersTicket, kAllInputPortsTicket, kAllSourcesTicket]

/-- Embeds `SystemBase::all_sources_ticket()` (system_base.h lines 297-299). -/
def all_sources_ticket : Nat := kAllSourcesTicket

/-- Embeds `SystemBase::nothing_ticket()` (system_base.h lines 304-306). -/
def nothing_ticket : Nat := kNothingTicket

/-- Embeds `SystemBase::time_ticket()` (system_base.h lines 310-312). -/
def time_ticket : Nat := kTimeTicket

/-- Embeds the metadata of `drake::systems::CacheEntry` as used by
`SystemBase`: description, allocator, calculator, prerequisite ticket list,
assigned cache index and assigned dependency ticket.  (The `CacheEntry`
class itself is declared in cache_entry.h, not among the source files; the
fields here are exactly the constructor arguments visible at the
declaration surface in system_base.h.) -/
structure CacheEntry (C V : Type) where
  description : String
  alloc_function : C → V
  calc_function : C → V → V
  prerequisites : List Nat
  cache_index : Nat
  ticket : Nat

/-- Embeds the private state of `SystemBase` (system_base.h lines 439-463):
the cache-entry table `cache_entries_`, the ticket counter
`next_available_ticket_`, and the subsystem name `name_`. -/
structure SystemBase (C V : Type) where
  cache_entries : List (CacheEntry C V)
  next_available_ticket : Nat
  name : String

/-- Embeds the default constructor `SystemBase() = default` together with
the member initializers: `cache_entries_` empty,
`next_available_ticket_{internal::kNextAvailableTicket}` (line 460), and
`name_` empty (line 463). -/
def SystemBase.init (C V : Type) : SystemBase C V :=
  { cache_entries := [], next_available_ticket := kNextAvailableTicket,
    name := "" }

/-- Embeds `SystemBase::set_name` (system_base.h line 36): stores the given
name verbatim; the TODO notes that no naming policy is enforced. -/
def SystemBase.set_name {C V : Type} (s : SystemBase C V) (n : String) :
    SystemBase C V :=
  { s with name := n }

/-- Embeds `SystemBase::GetSystemName` (system_base.h line 43): returns the
stored name. -/
def SystemBase.GetSystemName {C V : Type} (s : SystemBase C V) : String :=
  s.name

/-- Embeds `SystemBase::num_cache_entries` (system_base.h lines 69-71). -/
def SystemBase.num_cache_entries {C V : Type} (s : SystemBase C V) : Nat :=
  s.cache_entries.length

/-- Embeds `SystemBase::cache_entry_ticket` (system_base.h lines 419-422):
the `DRAKE_DEMAND` range check is modelled by returning `none` out of
range, otherwise the stored ticket of the indexed entry. -/
def SystemBase.cache_entry_ticket {C V : Type} (s : SystemBase C V)
    (index : Nat) : Option Nat :=
  (s.cache_entries[index]?).map (fun e => e.ticket)

/-- Embeds `SystemBase::assign_next_dependency_ticket` (system_base.h lines
443-445): `return next_available_ticket_++;` returns the current counter
value and increments the counter by one. -/
def SystemBase.assign_next_dependency_ticket {C V : Type}
    (s : SystemBase C V) : Nat × SystemBase C V :=
  (s.next_available_ticket,
   { s with next_available_ticket := s.next_available_ticket + 1 })

/-- Declaration-time failures.  `emptyPrerequisiteList` models the
documented `std::logic_error` for an explicitly empty prerequisite list;
`nothingNotSole` models the contract violation of combining the nothing
ticket with anything else; `systemTypeMismatch` models the `DRAKE_DEMAND`
failure when `dynamic_cast<const MySystem*>(this)` is null. -/
inductive DeclError where
  | emptyPrerequisiteList
  | nothingNotSole
  | systemTypeMismatch
deriving DecidableEq, Repr

/-- Modelled from the spec: the body of the general
`SystemBase::DeclareCacheEntry` lives in system_base.cc, which is not among
the source files; system_base.h lines 158-193 document the contract: throws
`std::logic_error` on an explicitly empty prerequisite list; the nothing
ticket, if present, must be the sole element; otherwise assigns the next
CacheIndex (the current count) and the next DependencyTicket (via
`assign_next_dependency_ticket`) and appends the new entry to the table.
The default prerequisite list `{all_sources_ticket()}` is in the header
(lines 192-193). -/
def SystemBase.DeclareCacheEntry {C V : Type} (s : SystemBase C V)
    (description : String) (alloc_function : C → V)
    (calc_function : C → V → V)
    (prerequisites_of_calc : List Nat := [all_sources_ticket]) :
    Except DeclError (CacheEntry C V × SystemBase C V) :=
  if prerequisites_of_calc = [] then
    Except.error DeclError.emptyPrerequisiteList
  else if kNothingTicket ∈ prerequisites_of_calc ∧
      prerequisites_of_calc ≠ [kNothingTicket] then
    Except.error DeclError.nothingNotSole
  else
    let entry : CacheEntry C V :=
      { description := description, alloc_function := alloc_function,
        calc_function := calc_function,
        prerequisites := prerequisites_of_calc,
        cache_index := s.num_cache_entries,
        ticket := s.assign_next_dependency_ticket.1 }
    Except.ok (entry,
      { s.assign_next_dependency_ticket.2 with
          cache_entries := s.cache_entries ++ [entry] })

/-- Embeds the make+calc bound-method overload of `DeclareCacheEntry`
(system_base.h lines 469-496): `this_ptr` is the result of
`dynamic_cast<const MySystem*>(this)`; `DRAKE_DEMAND(this_ptr != nullptr)`
fails fast when it is null, before anything is declared; otherwise the
allocator wraps `(this_ptr->*make)(context)` and the calculator invokes
`(this_ptr->*calc)(context, &result)`, and the general signature is
invoked. -/
def SystemBase.DeclareCacheEntryMakeCalc {C V MySys : Type}
    (s : SystemBase C V) (description : String) (this_ptr : Option MySys)
    (make : MySys → C → V) (calc_method : MySys → C → V → V)
    (prerequisites_of_calc : List Nat := [all_sources_ticket]) :
    Except DeclError (CacheEntry C V × SystemBase C V) :=
  match this_ptr with
  | none => Except.error DeclError.systemTypeMismatch
  | some p =>
      s.DeclareCacheEntry description (fun context => make p context)
        (fun context result => calc_method p context result)
        prerequisites_of_calc

/-- Embeds the model-value+calc bound-method overload of `DeclareCacheEntry`
(system_base.h lines 499-531): after the same `dynamic_cast` /
`DRAKE_DEMAND` fail-fast check, a single `Value<ValueType>` holding a copy
of the model value is created once, the allocator returns `model->Clone()`
on each call (no ValueType constructor re-invoked), the calculator invokes
the bound method, and the general signature is invoked. -/
def SystemBase.DeclareCacheEntryModelValue {C V MySys : Type}
    (s : SystemBase C V) (description : String) (this_ptr : Option MySys)
    (model_value : V) (calc_method : MySys → C → V → V)
    (prerequisites_of_calc : List Nat := [all_sources_ticket]) :
    Except DeclError (CacheEntry C V × SystemBase C V) :=
  match this_ptr with
  | none => Except.error DeclError.systemTypeMismatch
  | some p =>
      s.DeclareCacheEntry description (fun _ => model_value)
        (fun context result => calc_method p context result)
        prerequisites_of_calc

/-- Embeds the calc-only overload of `DeclareCacheEntry` (system_base.h
lines 534-551): requires ValueType to be default constructible (modelled by
`Inhabited V`), builds the model value by value initialization
`ValueType{}` (modelled by `default`) and invokes the model-value
overload. -/
def SystemBase.DeclareCacheEntryCalcOnly {C V MySys : Type} [Inhabited V]
    (s : SystemBase C V) (description : String) (this_ptr : Option MySys)
    (calc_method : MySys → C → V → V)
    (prerequisites_of_calc : List Nat := [all_sources_ticket]) :
    Except DeclError (CacheEntry C V × SystemBase C V) :=
  s.DeclareCacheEntryModelValue description this_ptr (default : V)
    calc_method prerequisites_of_calc

/-- The state reached after issuing `k` entity-specific tickets in a row
via `assign_next_dependency_ticket`. -/
def SystemBase.afterTickets {C V : Type} (s : SystemBase C V) :
    Nat → SystemBase C V
  | 0 => s
  | k + 1 => ((s.afterTickets k).assign_next_dependency_ticket).2

/-- The `k`-th ticket (0-based) issued by repeated calls to
`assign_next_dependency_ticket`. -/
def SystemBase.issuedTicket {C V : Type} (s : SystemBase C V) (k : Nat) :
    Nat :=
  ((s.afterTickets k).assign_next_dependency_ticket).1

/-- A concrete subsystem: the `SystemBase` state together with the
subclass-supplied pure virtual `DoCheckValidContext` hook (system_base.h
line 437), modelled as a function field. -/
structure ConcreteSystem (C V : Type) where
  base : SystemBase C V
  doCheckValidContext : C → Except String Unit

/-- Embeds `SystemBase::CheckValidContext` (system_base.h lines 269-274):
the body contains only `// TODO(sherm1) Add base class checks.` followed by
the call to the subclass hook `DoCheckValidContext(context)`. -/
def ConcreteSystem.CheckValidContext {C V : Type} (sys : ConcreteSystem C V)
    (context : C) : Except String Unit :=
  sys.doCheckValidContext context

/-- Embeds `SystemBase::ThrowIfContextNotCompatible` (system_base.h lines
57-59): the body is exactly `CheckValidContext(context);`. -/
def ConcreteSystem.ThrowIfContextNotCompatible {C V : Type}
    (sys : ConcreteSystem C V) (context : C) : Except String Unit :=
  sys.CheckValidContext context

/-- A minimal context type carrying only its structural shape (number of
per-cache-entry value slots), for refuting the claim that the base layer
performs structural checks. -/
structure ExampleContext where
  num_cache_entry_values : Nat
deriving DecidableEq, Repr

/-- Spec-side structural-compatibility predicate: the context has exactly
one value slot per declared cache entry (the entry-count check the spec
attributes to the base layer). -/
def contextMatchesStructure {V : Type}
    (sys : ConcreteSystem ExampleContext V) (context : ExampleContext) :
    Bool :=
  context.num_cache_entry_values == sys.base.num_cache_entries

/-- A concrete example cache entry used by the structural-check
counterexample. -/
def exampleEntry : CacheEntry ExampleContext Nat :=
  { description := "example", alloc_function := fun _ => 0,
    calc_function := fun _ v => v, prerequisites := [all_sources_ticket],
    cache_index := 0, ticket := kNextAvailableTicket }

/-- A concrete subsystem with one declared cache entry whose subclass hook
accepts every context. -/
def exampleSystem : ConcreteSystem ExampleContext Nat :=
  { base :=
      { cache_entries := [exampleEntry],
        next_available_ticket := kNextAvailableTicket + 1, name := "" },
    doCheckValidContext := fun _ => Except.ok () }

/-- A context whose structure does not match `exampleSystem`: it has zero
cache-entry value slots while the system declares one entry. -/
def exampleBadContext : ExampleContext :=
  { num_cache_entry_values := 0 }

/-- A concrete description string used in witnesses. -/
def exampleDescription : String := "example entry"

/-- The cache entry produced by declaring on a fresh system with
prerequisite list `[kTimeTicket]` (used as a concrete witness). -/
def witnessEntry : CacheEntry Unit Nat :=
  { description := exampleDescription, alloc_function := fun _ => 0,
    calc_function := fun _ v => v, prerequisites := [kTimeTicket],
    cache_index := 0, ticket := kNextAvailableTicket }

/-- The system state after the declaration producing `witnessEntry`. -/
def witnessState : SystemBase Unit Nat :=
  { cache_entries := [witnessEntry],
    next_available_ticket := kNextAvailableTicket + 1, name := "" }

/-- The cache entry produced by declaring on a fresh system with the
prerequisite list omitted (so defaulted to `[all_sources_ticket]`). -/
def defaultPrereqEntry : CacheEntry Unit Nat :=
  { description := exampleDescription, alloc_function := fun _ => 0,
    calc_function := fun _ v => v, prerequisites := [all_sources_ticket],
    cache_index := 0, ticket := kNextAvailableTicket }

/-- The system state after the declaration producing
`defaultPrereqEntry`. -/
def defaultPrereqState : SystemBase Unit Nat :=
  { cache_entries := [defaultPrereqEntry],
    next_available_ticket := kNextAvailableTicket + 1, name := "" }

/-- The cache entry produced by the calc-only overload on a fresh system
with value type `Nat` (model value is the value-initialized `default`). -/
def calcOnlyEntry : CacheEntry Unit Nat :=
  { description := exampleDescription,
    alloc_function := fun _ => (default : Nat),
    calc_function := fun _ v => v, prerequisites := [kTimeTicket],
    cache_index := 0, ticket := kNextAvailableTicket }

/-- The system state after the declaration producing `calcOnlyEntry`. -/
def calcOnlyState : SystemBase Unit Nat :=
  { cache_entries := [calcOnlyEntry],
    next_available_ticket := kNextAvailableTicket + 1, name := "" }

/-!
Theorems.  `declare_ok_elim` is a shared helper describing exactly what a
successful general `DeclareCacheEntry` produced; the claim theorems
follow.
-/

/-- Helper: a successful general `DeclareCacheEntry` stored the given
description, allocator, calculator and prerequisites verbatim, assigned
the current count as index and the current counter as ticket, appended the
entry, and advanced the counter by one, leaving the name unchanged. -/
theorem declare_ok_elim {C V : Type} {s s2 : SystemBase C V} {d : String}
    {a : C → V} {c : C → V → V} {pr : List Nat} {e : CacheEntry C V}
    (h : s.DeclareCacheEntry d a c pr = Except.ok (e, s2)) :
    e.description = d ∧ e.alloc_function = a ∧ e.calc_function = c ∧
    e.prerequisites = pr ∧ e.cache_index = s.num_cache_entries ∧
    e.ticket = s.next_available_ticket ∧
    s2.cache_entries = s.cache_entries ++ [e] ∧
    s2.next_available_ticket = s.next_available_ticket + 1 ∧
    s2.name = s.name := by
  unfold SystemBase.DeclareCacheEntry at h
  split at h
  · exact absurd h (by simp)
  · split at h
    · exact absurd h (by simp)
    · obtain ⟨he, hs⟩ := Prod.mk.injEq .. ▸ (Except.ok.inj h)
      subst he
      subst hs
      refine ⟨rfl, rfl, rfl, rfl, rfl, rfl, rfl, rfl, rfl⟩

/-- Claim C1: DeclareCacheEntry (the general allocator+calculator form and
every convenience form that reduces to it) fails at declaration time with
the invalid-argument error whenever the supplied prerequisite list is
explicitly empty — the error result carries no successor state, so no
cache entry is added and no ticket is consumed — and a non-empty list is
never rejected on emptiness grounds. -/
theorem declareCacheEntry_rejects_empty_prerequisites
    (C V MySys : Type) [Inhabited V] (s : SystemBase C V) (d : String)
    (a : C → V) (c : C → V → V) (pr : List Nat) (p : MySys)
    (mk : MySys → C → V) (cm : MySys → C → V → V) (mv : V) :
    s.DeclareCacheEntry d a c []
        = Except.error DeclError.emptyPrerequisiteList
    ∧ (pr ≠ [] → s.DeclareCacheEntry d a c pr
        ≠ Except.error DeclError.emptyPrerequisiteList)
    ∧ s.DeclareCacheEntryMakeCalc d (some p) mk cm []
        = Except.error DeclError.emptyPrerequisiteList
    ∧ s.DeclareCacheEntryModelValue d (some p) mv cm []
        = Except.error DeclError.emptyPrerequisiteList
    ∧ s.DeclareCacheEntryCalcOnly d (some p) cm []
        = Except.error DeclError.emptyPrerequisiteList := by
  refine ⟨rfl, ?_, rfl, rfl, rfl⟩
  intro hne
  unfold SystemBase.DeclareCacheEntry
  rw [if_neg hne]
  split
  · simp
  · simp

/-- Witness for claim C1 at a concrete input: the non-empty list
`[kTimeTicket]` is not rejected on emptiness grounds. -/
theorem declareCacheEntry_rejects_empty_prerequisites_witness :
    [kTimeTicket] ≠ ([] : List Nat)
    ∧ (SystemBase.init Unit Nat).DeclareCacheEntry exampleDescription
        (fun _ => 0) (fun _ v => v) [kTimeTicket]
        ≠ Except.error DeclError.emptyPrerequisiteList :=
  ⟨by decide,
   (declareCacheEntry_rejects_empty_prerequisites Unit Nat Unit
      (SystemBase.init Unit Nat) exampleDescription (fun _ => 0)
      (fun _ v => v) [kTimeTicket] () (fun _ _ => 0) (fun _ _ v => v)
      0).2.1 (by decide)⟩

/-- Helper: issuing tickets `k` times advances the counter by `k`. -/
theorem afterTickets_counter {C V : Type} (s : SystemBase C V) (k : Nat) :
    (s.afterTickets k).next_available_ticket
      = s.next_available_ticket + k := by
  induction k with
  | zero => rfl
  | succ n ih =>
      simp only [SystemBase.afterTickets,
        SystemBase.assign_next_dependency_ticket, ih]
      omega

/-- Helper: the `k`-th issued ticket is the seed plus `k`. -/
theorem issuedTicket_eq {C V : Type} (s : SystemBase C V) (k : Nat) :
    s.issuedTicket k = s.next_available_ticket + k := by
  simp only [SystemBase.issuedTicket,
    SystemBase.assign_next_dependency_ticket]
  exact afterTickets_counter s k

/-- Claim C2: entity-specific tickets are issued by a counter seeded (in
the default constructor) to `kNextAvailableTicket`, the first value past
every well-known ticket; each issuance returns the current counter value
and increments it by exactly one, so the issued sequence is strictly
increasing, repeat-free, and starts immediately past the well-known
range. -/
theorem assign_next_dependency_ticket_spec
    (C V : Type) (s : SystemBase C V) (j k : Nat) :
    s.assign_next_dependency_ticket.1 = s.next_available_ticket
    ∧ s.assign_next_dependency_ticket.2.next_available_ticket
        = s.next_available_ticket + 1
    ∧ s.issuedTicket k = s.next_available_ticket + k
    ∧ (SystemBase.init C V).next_available_ticket = kNextAvailableTicket
    ∧ (SystemBase.init C V).issuedTicket k = kNextAvailableTicket + k
    ∧ (j < k → s.issuedTicket j < s.issuedTicket k)
    ∧ (s.issuedTicket j = s.issuedTicket k → j = k)
    ∧ (∀ t ∈ wellKnownTickets, t < kNextAvailableTicket) := by
  have hj := issuedTicket_eq s j
  have hk := issuedTicket_eq s k
  refine ⟨rfl, rfl, issuedTicket_eq s k, rfl, issuedTicket_eq _ k,
    ?_, ?_, by decide⟩
  · intro hlt
    omega
  · intro heq
    omega

/-- Witness for claim C2 at concrete inputs: the first two tickets issued
by a fresh subsystem are strictly increasing. -/
theorem assign_next_dependency_ticket_spec_witness :
    (0 < 1
      → (SystemBase.init Unit Nat).issuedTicket 0
          < (SystemBase.init Unit Nat).issuedTicket 1)
    ∧ (SystemBase.init Unit Nat).issuedTicket 0
        < (SystemBase.init Unit Nat).issuedTicket 1 :=
  ⟨(assign_next_dependency_ticket_spec Unit Nat
      (SystemBase.init Unit Nat) 0 1).2.2.2.2.2.1,
   (assign_next_dependency_ticket_spec Unit Nat
      (SystemBase.init Unit Nat) 0 1).2.2.2.2.2.1 (by decide)⟩

/-- Claim C3: each successful DeclareCacheEntry appends exactly one entry
to the cache-entry table and advances the ticket counter by one: the
count grows by one, the new entry's index equals the previous count, the
new entry's ticket is the counter value at declaration time, previously
declared entries (and their recoverable tickets) are unchanged, and
`cache_entry_ticket` at the new index returns the new entry's ticket. -/
theorem declareCacheEntry_appends_one
    (C V : Type) (s s2 : SystemBase C V) (d : String) (a : C → V)
    (c : C → V → V) (pr : List Nat) (e : CacheEntry C V)
    (h : s.DeclareCacheEntry d a c pr = Except.ok (e, s2)) :
    s2.num_cache_entries = s.num_cache_entries + 1
    ∧ e.cache_index = s.num_cache_entries
    ∧ e.ticket = s.next_available_ticket
    ∧ s2.next_available_ticket = s.next_available_ticket + 1
    ∧ (∀ i, i < s.num_cache_entries
        → s2.cache_entries[i]? = s.cache_entries[i]?)
    ∧ s2.cache_entry_ticket s.num_cache_entries = some e.ticket
    ∧ (∀ i, i < s.num_cache_entries
        → s2.cache_entry_ticket i = s.cache_entry_ticket i) := by
  obtain ⟨-, -, -, -, hidx, htick, happ, hadv, -⟩ := declare_ok_elim h
  have hlen : s2.num_cache_entries = s.num_cache_entries + 1 := by
    simp [SystemBase.num_cache_entries, happ]
  have hget : ∀ i, i < s.num_cache_entries
      → s2.cache_entries[i]? = s.cache_entries[i]? := by
    intro i hi
    have hi2 : i < s.cache_entries.length := hi
    rw [happ, List.getElem?_append, if_pos hi2]
  refine ⟨hlen, hidx, htick, hadv, hget, ?_, ?_⟩
  · simp only [SystemBase.cache_entry_ticket, happ,
      SystemBase.num_cache_entries]
    rw [List.getElem?_concat_length]
    rfl
  · intro i hi
    simp only [SystemBase.cache_entry_ticket, hget i hi]

/-- Witness for claim C3 at a concrete input: declaring on a fresh
subsystem yields exactly one entry. -/
theorem declareCacheEntry_appends_one_witness :
    ((SystemBase.init Unit Nat).DeclareCacheEntry exampleDescription
        (fun _ => 0) (fun _ v => v) [kTimeTicket]
      = Except.ok (witnessEntry, witnessState))
    ∧ witnessState.num_cache_entries
        = (SystemBase.init Unit Nat).num_cache_entries + 1 :=
  ⟨rfl,
   (declareCacheEntry_appends_one Unit Nat (SystemBase.init Unit Nat)
      witnessState exampleDescription (fun _ => 0) (fun _ v => v)
      [kTimeTicket] witnessEntry rfl).1⟩

/-- Claim C4: when a caller of any DeclareCacheEntry overload omits the
prerequisite list, the call is identical to one passing
`[all_sources_ticket]` explicitly (the default argument in every overload
declaration), and on success the declared entry's stored prerequisites are
exactly the singleton all-sources ticket. -/
theorem declareCacheEntry_default_is_all_sources
    (C V MySys : Type) [Inhabited V] (s : SystemBase C V) (d : String)
    (a : C → V) (c : C → V → V) (tp : Option MySys)
    (mk : MySys → C → V) (cm : MySys → C → V → V) (mv : V) :
    s.DeclareCacheEntry d a c
        = s.DeclareCacheEntry d a c [all_sources_ticket]
    ∧ s.DeclareCacheEntryMakeCalc d tp mk cm
        = s.DeclareCacheEntryMakeCalc d tp mk cm [all_sources_ticket]
    ∧ s.DeclareCacheEntryModelValue d tp mv cm
        = s.DeclareCacheEntryModelValue d tp mv cm [all_sources_ticket]
    ∧ s.DeclareCacheEntryCalcOnly d tp cm
        = s.DeclareCacheEntryCalcOnly d tp cm [all_sources_ticket]
    ∧ (∀ e s2, s.DeclareCacheEntry d a c = Except.ok (e, s2)
        → e.prerequisites = [all_sources_ticket]) := by
  refine ⟨rfl, rfl, rfl, rfl, ?_⟩
  intro e s2 h
  exact (declare_ok_elim h).2.2.2.1

/-- Witness for claim C4 at a concrete input: declaring on a fresh
subsystem with the prerequisite list omitted stores exactly
`[all_sources_ticket]`. -/
theorem declareCacheEntry_default_is_all_sources_witness :
    ((SystemBase.init Unit Nat).DeclareCacheEntry exampleDescription
        (fun _ => 0) (fun _ v => v)
      = Except.ok (defaultPrereqEntry, defaultPrereqState))
    ∧ defaultPrereqEntry.prerequisites = [all_sources_ticket] :=
  ⟨rfl,
   (declareCacheEntry_default_is_all_sources Unit Nat Unit
      (SystemBase.init Unit Nat) exampleDescription (fun _ => 0)
      (fun _ v => v) (some ()) (fun _ _ => 0) (fun _ _ v => v)
      0).2.2.2.2 defaultPrereqEntry defaultPrereqState rfl⟩

/-- Claim C5: declaring a cache entry whose prerequisite list contains
`nothing_ticket` together with at least one other ticket always fails at
declaration time, while declaring with exactly `[nothing_ticket]`
succeeds. -/
theorem nothing_ticket_must_be_sole
    (C V : Type) (s : SystemBase C V) (d : String) (a : C → V)
    (c : C → V → V) (pr : List Nat) :
    (nothing_ticket ∈ pr → (∃ t ∈ pr, t ≠ nothing_ticket)
      → s.DeclareCacheEntry d a c pr = Except.error DeclError.nothingNotSole)
    ∧ (∃ r, s.DeclareCacheEntry d a c [nothing_ticket] = Except.ok r) := by
  constructor
  · intro hmem hother
    obtain ⟨t, htmem, htne⟩ := hother
    have hne : pr ≠ [] := by
      intro hnil
      rw [hnil] at hmem
      exact absurd hmem (List.not_mem_nil _)
    have hnsole : pr ≠ [kNothingTicket] := by
      intro hsole
      rw [hsole] at htmem
      exact htne (List.mem_singleton.mp htmem)
    unfold SystemBase.DeclareCacheEntry
    rw [if_neg hne, if_pos ⟨hmem, hnsole⟩]
  · unfold SystemBase.DeclareCacheEntry
    rw [if_neg (by simp), if_neg (by simp [nothing_ticket])]
    exact ⟨_, rfl⟩

/-- Witness for claim C5 at a concrete input: the list
`[nothing_ticket, kTimeTicket]` is rejected with the nothing-not-sole
error. -/
theorem nothing_ticket_must_be_sole_witness :
    (nothing_ticket ∈ [nothing_ticket, kTimeTicket]
      ∧ (∃ t ∈ [nothing_ticket, kTimeTicket], t ≠ nothing_ticket))
    ∧ (SystemBase.init Unit Nat).DeclareCacheEntry exampleDescription
        (fun _ => 0) (fun _ v => v) [nothing_ticket, kTimeTicket]
        = Except.error DeclError.nothingNotSole :=
  ⟨⟨by decide, ⟨kTimeTicket, by decide, by decide⟩⟩,
   (nothing_ticket_must_be_sole Unit Nat (SystemBase.init Unit Nat)
      exampleDescription (fun _ => 0) (fun _ v => v)
      [nothing_ticket, kTimeTicket]).1 (by decide)
      ⟨kTimeTicket, by decide, by decide⟩⟩

/-- Claim C6 counterexample: the base layer of CheckValidContext performs
no structural checks — a context whose structure does not match the
subsystem (zero cache-entry value slots against one declared entry) is
accepted whenever the subclass hook accepts it, contradicting the claim
that such a context is rejected by the base layer. -/
theorem checkValidContext_counterexample :
    exampleSystem.CheckValidContext exampleBadContext = Except.ok ()
    ∧ exampleSystem.ThrowIfContextNotCompatible exampleBadContext
        = Except.ok ()
    ∧ contextMatchesStructure exampleSystem exampleBadContext = false :=
  ⟨rfl, rfl, rfl⟩

/-- Claim C6 (amended): CheckValidContext (and hence
ThrowIfContextNotCompatible) performs no base-layer structural checks —
the source body holds only a TODO to add them — and consists exactly of
the invocation of the subclass hook DoCheckValidContext, so a context is
accepted iff the hook accepts it. -/
theorem checkValidContext_is_only_the_hook
    (C V : Type) (sys : ConcreteSystem C V) (context : C) :
    sys.CheckValidContext context = sys.doCheckValidContext context
    ∧ sys.ThrowIfContextNotCompatible context
        = sys.doCheckValidContext context :=
  ⟨rfl, rfl⟩

/-- Claim C7: the calc-method-only DeclareCacheEntry overload is
behaviorally identical to the model-value overload invoked with the
value-initialized model `default` (ValueType's value initialization): the
two calls return equal results for every description, calc method and
prerequisite list, and on success the entry's allocator is the constant
function returning the one value-initialized model (the model is built
once; allocation only copies it). -/
theorem calcOnly_eq_modelValue_default
    (C V MySys : Type) [Inhabited V] (s : SystemBase C V) (d : String)
    (tp : Option MySys) (cm : MySys → C → V → V) (pr : List Nat) :
    s.DeclareCacheEntryCalcOnly d tp cm pr
      = s.DeclareCacheEntryModelValue d tp (default : V) cm pr
    ∧ (∀ e s2, s.DeclareCacheEntryCalcOnly d tp cm pr = Except.ok (e, s2)
        → e.alloc_function = (fun _ => (default : V))
          ∧ e.description = d ∧ e.prerequisites = pr) := by
  refine ⟨rfl, ?_⟩
  intro e s2 h
  unfold SystemBase.DeclareCacheEntryCalcOnly
    SystemBase.DeclareCacheEntryModelValue at h
  cases tp with
  | none => exact absurd h (by simp)
  | some p =>
      obtain ⟨hd, ha, -, hpr, -⟩ := declare_ok_elim h
      exact ⟨ha, hd, hpr⟩

/-- Witness for claim C7 at a concrete input: the calc-only overload on a
fresh subsystem produces an entry whose allocator returns the
value-initialized model. -/
theorem calcOnly_eq_modelValue_default_witness :
    ((SystemBase.init Unit Nat).DeclareCacheEntryCalcOnly
        exampleDescription (some ()) (fun _ _ v => v) [kTimeTicket]
      = Except.ok (calcOnlyEntry, calcOnlyState))
    ∧ calcOnlyEntry.alloc_function = (fun _ => (default : Nat)) :=
  ⟨rfl,
   ((calcOnly_eq_modelValue_default Unit Nat Unit
      (SystemBase.init Unit Nat) exampleDescription (some ())
      (fun _ _ v => v) [kTimeTicket]).2 calcOnlyEntry calcOnlyState
      rfl).1⟩

/-- Claim C8: every bound-method DeclareCacheEntry overload checks at the
declaration call site that `dynamic_cast<const MySystem*>(this)` succeeded
and fails fast — synchronously, with no entry registered and no successor
state produced — when it did not; a declaration with a mismatched
subsystem type never succeeds. -/
theorem boundMethod_overloads_fail_fast_on_type_mismatch
    (C V MySys : Type) [Inhabited V] (s : SystemBase C V) (d : String)
    (mk : MySys → C → V) (cm : MySys → C → V → V) (mv : V)
    (pr : List Nat) :
    s.DeclareCacheEntryMakeCalc d (none : Option MySys) mk cm pr
        = Except.error DeclError.systemTypeMismatch
    ∧ s.DeclareCacheEntryModelValue d (none : Option MySys) mv cm pr
        = Except.error DeclError.systemTypeMismatch
    ∧ s.DeclareCacheEntryCalcOnly d (none : Option MySys) cm pr
        = Except.error DeclError.systemTypeMismatch :=
  ⟨rfl, rfl, rfl⟩

/-- Claim C9: ThrowIfContextNotCompatible does nothing but invoke
CheckValidContext, so for every subsystem and context the two are
behaviorally equivalent; both are pure functions of the subsystem and the
context, mutating neither. -/
theorem throwIfContextNotCompatible_eq_checkValidContext
    (C V : Type) (sys : ConcreteSystem C V) (context : C) :
    sys.ThrowIfContextNotCompatible context = sys.CheckValidContext context :=
  rfl

/-- Claim C10: after `set_name n` the call GetSystemName returns exactly
`n` — stored verbatim, with no rejection or sanitization even for the
empty string or names containing the path delimiter, the statement being
universally quantified over all strings — and no other field of the
subsystem (cache-entry table, ticket counter) is changed. -/
theorem set_name_stores_verbatim
    (C V : Type) (s : SystemBase C V) (n : String) :
    (s.set_name n).GetSystemName = n
    ∧ (s.set_name n).cache_entries = s.cache_entries
    ∧ (s.set_name n).next_available_ticket = s.next_available_ticket :=
  ⟨rfl, rfl, rfl⟩
